import Mathlib

/-!
# Verification of the DevOps Crisis Commander incident pipeline

Shallow embedding of the incident-response pipeline of this repository
(`backend/agents/incident_classifier.py`, `backend/agents/resolution_advisor.py`,
`backend/agents/postmortem_generator.py`, `backend/agents/orchestrator.py`,
`backend/simple_orchestrator.py`) together with proofs about the embedded
definitions.

Modelling conventions:
- Python floats are modelled as `ℚ` (no claim examined here depends on
  floating-point rounding).
- Python strings are Lean `String`s; `in`-substring tests are modelled by
  `strContainsSub`; `.lower()` by `strLower` (all relevant text is ASCII).
- `datetime` values are modelled as integers (e.g. seconds); the wall clock
  `datetime.now()` is passed in as an explicit parameter where its value
  matters and omitted from outputs where it is pure metadata
  (`generated_at` fields).
- `random.random()` draws are modelled as an explicit stream `ℕ → ℚ` of the
  successive values returned by the generator, and `random.randint` by a
  second stream; theorems quantify over all streams.
-/

/-- Python `pat in s` substring test on strings. -/
def strContainsSub (s pat : String) : Bool :=
  s.toList.tails.any (fun t => pat.toList.isPrefixOf t)

/-- Python `s.lower()` (ASCII). -/
def strLower (s : String) : String :=
  String.mk (s.toList.map Char.toLower)

/-- Python `any(word in message for word in words)`. -/
def containsAny (message : String) (words : List String) : Bool :=
  words.any (fun w => strContainsSub message w)

/-- Lookup in a Python numeric dict: `metrics.get(key, 0)`. -/
def mget (m : List (String × ℚ)) (key : String) : ℚ :=
  (m.lookup key).getD 0

/-!
## Incident classifier (`backend/agents/incident_classifier.py`)

The alert dict passed to `IncidentClassifierTool.run` is modelled by
`AlertInfo`: each probed key is an optional field (`None` = key absent), the
numeric `metrics` sub-dict is an association list.
-/

structure AlertInfo where
  id : Option String
  alert_type : Option String
  severity : Option String
  metrics : List (String × ℚ)
  message : Option String
  affected_services : List String
  source_system : Option String
deriving DecidableEq

/-- The classification dict returned by `IncidentClassifierTool.run`
(the `generated_at` clock field is omitted). -/
structure ClassificationOut where
  incident_id : String
  category : String
  severity : String
  confidence : ℚ
  tags : List String
  estimated_impact : String
  reasoning : String
deriving DecidableEq

/-- `IncidentClassifierTool._determine_category`. -/
def determineCategory (alert_type message : String) (services : List String) : String :=
  if containsAny message ["database", "connection", "query", "sql", "redis", "mongo"] then
    "database"
  else if containsAny alert_type ["database", "db"] then
    "database"
  else if services.any (fun s => strContainsSub s "db") then
    "database"
  else if containsAny message ["network", "latency", "timeout", "ssl", "certificate", "dns"] then
    "network"
  else if alert_type = "network" then
    "network"
  else if containsAny message ["cdn", "proxy", "gateway"] then
    "network"
  else if containsAny message ["application", "service", "endpoint", "api", "error rate"] then
    "application"
  else if alert_type = "application" then
    "application"
  else if services.any (fun s => strContainsSub s "service") then
    "application"
  else if alert_type = "cpu" ∨ alert_type = "memory" ∨ alert_type = "disk" then
    "infrastructure"
  else if containsAny message ["cpu", "memory", "disk", "storage", "filesystem"] then
    "infrastructure"
  else
    "infrastructure"

/-- Base severity score: `severity_map.get(original_severity, 2)`. -/
def severityBase (original_severity : String) : ℕ :=
  if original_severity = "critical" then 4
  else if original_severity = "high" then 3
  else if original_severity = "medium" then 2
  else if original_severity = "low" then 1
  else 2

/-- `IncidentClassifierTool._assess_severity`: successive `+=` boosts are
written as a sum of conditional terms. -/
def assessSeverity (original_severity : String) (metrics : List (String × ℚ))
    (message : String) (category : String) : String :=
  let score : ℕ :=
    severityBase original_severity
    + (if 95 < mget metrics "cpu_usage" then 1 else 0)
    + (if 90 < mget metrics "memory_usage" then 1 else 0)
    + (if (1 : ℚ)/10 < mget metrics "error_rate" then 1 else 0)
    + (if 5000 < mget metrics "response_time" then 1 else 0)
    + (if containsAny message ["down", "failed", "critical", "emergency", "outage"] then 1 else 0)
    + (if category = "database" ∧ strContainsSub message "connection" then 1 else 0)
    + (if category = "application" ∧ strContainsSub message "health check" then 1 else 0)
  if 5 ≤ score then "critical"
  else if 4 ≤ score then "high"
  else if 3 ≤ score then "medium"
  else "low"

/-- The `category_keywords` table of `_calculate_confidence`
(`None` = category not a key of the dict). -/
def categoryKeywords (category : String) : Option (List String) :=
  if category = "database" then some ["database", "connection", "query", "sql"]
  else if category = "network" then some ["network", "latency", "ssl", "dns"]
  else if category = "application" then some ["application", "service", "api", "error"]
  else if category = "infrastructure" then some ["cpu", "memory", "disk", "storage"]
  else none

/-- The keyword-density bonus of `_calculate_confidence`:
`min(keyword_matches * 0.05, 0.2)` when the category is a key of
`category_keywords`, nothing otherwise. -/
def keywordBonus (category message : String) : ℚ :=
  match categoryKeywords category with
  | some ws => min ((ws.countP (fun w => strContainsSub message w) : ℚ) * (1/20)) (1/5)
  | none => 0

/-- `IncidentClassifierTool._calculate_confidence`.  Python truthiness of the
probed fields: a missing or empty string / list / dict is falsy. -/
def calculateConfidence (a : AlertInfo) (category severity : String) : ℚ :=
  let message := strLower (a.message.getD "")
  let completeness : ℚ :=
    (if a.alert_type.getD "" ≠ "" then (1 : ℚ)/10 else 0)
    + (if a.metrics ≠ [] then (1 : ℚ)/10 else 0)
    + (if a.affected_services ≠ [] then (1 : ℚ)/10 else 0)
    + (if a.source_system.getD "" ≠ "" then (1 : ℚ)/10 else 0)
  let severityBonus : ℚ :=
    if severity = "critical" ∧
        (95 < mget a.metrics "cpu_usage" ∨ (1 : ℚ)/5 < mget a.metrics "error_rate") then
      (1 : ℚ)/10
    else 0
  min (1/2 + completeness + keywordBonus category message + severityBonus) 1

/-- `IncidentClassifierTool._generate_tags`. -/
def generateTags (alert_type message : String) (services : List String)
    (metrics : List (String × ℚ)) : List String :=
  (if alert_type ≠ "" then [alert_type] else [])
  ++ (services.take 3).map (fun s => "service:" ++ s)
  ++ (if 90 < mget metrics "cpu_usage" then ["high-cpu"] else [])
  ++ (if 85 < mget metrics "memory_usage" then ["high-memory"] else [])
  ++ (if (1 : ℚ)/20 < mget metrics "error_rate" then ["high-error-rate"] else [])
  ++ (if 3000 < mget metrics "response_time" then ["slow-response"] else [])
  ++ (if strContainsSub message "backup" then ["backup"] else [])
  ++ (if strContainsSub message "ssl" ∨ strContainsSub message "certificate" then ["security"] else [])
  ++ (if strContainsSub message "cluster" then ["clustering"] else [])

/-- `IncidentClassifierTool._estimate_impact`. -/
def estimateImpact (severity : String) (services : List String) (category : String) : String :=
  let criticalServices := ["auth", "api-gateway", "payment", "checkout", "user"]
  let serviceCriticality :=
    services.any (fun s => criticalServices.any (fun c => strContainsSub (strLower s) c))
  if severity = "critical" then
    if serviceCriticality then "High - Critical user-facing services affected"
    else "Medium-High - System stability compromised"
  else if severity = "high" then
    if serviceCriticality then "Medium-High - User experience degraded"
    else "Medium - Internal systems affected"
  else if severity = "medium" then
    if category = "database" then "Medium - Data integrity or availability concerns"
    else "Low-Medium - Limited service impact"
  else
    "Low - Minimal business impact"

/-- `IncidentClassifierTool._generate_reasoning`. -/
def generateReasoning (category severity : String) (confidence : ℚ)
    (metrics : List (String × ℚ)) : String :=
  let parts : List String :=
    ["Classified as '" ++ category ++ "' incident based on alert characteristics."]
    ++ (if severity = "critical" then
          ["Severity elevated to CRITICAL due to:"]
          ++ (if 95 < mget metrics "cpu_usage" then ["- CPU usage exceeding 95%"] else [])
          ++ (if (1 : ℚ)/5 < mget metrics "error_rate" then ["- Error rate above 20%"] else [])
        else if severity = "high" then
          ["Assessed as HIGH severity due to significant system impact."]
        else [])
    ++ (if (4 : ℚ)/5 < confidence then
          ["High confidence classification based on clear indicators."]
        else if confidence < (3 : ℚ)/5 then
          ["Moderate confidence - may require manual review."]
        else [])
  String.intercalate " " parts

/-- Body of the `try` block of `IncidentClassifierTool.run` on a parsed
alert dict. -/
def classifyAlert (a : AlertInfo) : ClassificationOut :=
  let alert_type := strLower (a.alert_type.getD "")
  let severity := strLower (a.severity.getD "")
  let metrics := a.metrics
  let message := strLower (a.message.getD "")
  let services := a.affected_services
  let category := determineCategory alert_type message services
  let assessed := assessSeverity severity metrics message category
  let confidence := calculateConfidence a category assessed
  { incident_id := a.id.getD "unknown"
    category := category
    severity := assessed
    confidence := confidence
    tags := generateTags alert_type message services metrics
    estimated_impact := estimateImpact assessed services category
    reasoning := generateReasoning category assessed confidence metrics }

/-- The inputs `IncidentClassifierTool.run` can receive: a dict (or JSON
string) with well-typed fields, an unparseable JSON string (which becomes
the dict `{"raw_data": raw}`, so every probed key defaults), or data whose
field access raises inside the `try` block (wrongly-typed fields), which the
top-level `except` converts into the fixed fallback classification. -/
inductive ClassifierInput where
  | parsed (a : AlertInfo)
  | badJson (raw : String)
  | erroring (err : String)

/-- The alert dict `{"raw_data": raw}`: none of the probed keys is present. -/
def rawDataAlert : AlertInfo :=
  { id := none, alert_type := none, severity := none, metrics := [],
    message := none, affected_services := [], source_system := none }

/-- The fixed fallback classification of the `except` branch of
`IncidentClassifierTool.run`. -/
def fallbackClassification (err : String) : ClassificationOut :=
  { incident_id := "unknown"
    category := "unknown"
    severity := "medium"
    confidence := 3/10
    tags := ["unclassified", "needs-review"]
    estimated_impact := "unknown"
    reasoning := "Classification failed: " ++ err ++ ". Manual review required." }

/-- `IncidentClassifierTool.run`. -/
def classifierRun : ClassifierInput → ClassificationOut
  | .parsed a => classifyAlert a
  | .badJson _ => classifyAlert rawDataAlert
  | .erroring err => fallbackClassification err

/-!
## Resolution advisor (`backend/agents/resolution_advisor.py`)
-/

/-- A step dict of the static runbook catalog (`_load_runbooks`): the keys
`command`, `automation_possible`, `risk_level`, `rollback_command` are read
with `.get` defaults, so they are optional fields. -/
structure RStepDict where
  step_number : ℕ
  description : String
  command : Option String
  expected_result : String
  automation_possible : Option Bool
  risk_level : Option String
  rollback_command : Option String
deriving DecidableEq

/-- A `ResolutionStep` as built by `_generate_resolution_steps` /
`_generate_generic_steps` (all defaults applied). -/
structure RStep where
  step_number : ℕ
  description : String
  command : String
  expected_result : String
  automation_possible : Bool
  risk_level : String
  rollback_command : String
deriving DecidableEq

/-- A runbook dict of the catalog.  Every catalog entry carries a
`success_rate`, so the `rb.get("success_rate", 0.7)` default of
`_calculate_success_probability` never fires on this catalog. -/
structure RunbookData where
  category : String
  severity_levels : List String
  title : String
  steps : List RStepDict
  prerequisites : List String
  estimated_time : ℕ
  success_rate : ℚ
deriving DecidableEq

/-- The static runbook catalog of `ResolutionAdvisorTool._load_runbooks`. -/
def runbookDB : List RunbookData :=
  [ { category := "infrastructure"
      severity_levels := ["critical", "high"]
      title := "High CPU Usage Resolution"
      steps :=
        [ { step_number := 1, description := "Identify top CPU consuming processes",
            command := some "top -o %CPU | head -10",
            expected_result := "List of processes sorted by CPU usage",
            automation_possible := some true, risk_level := some "low",
            rollback_command := none },
          { step_number := 2, description := "Check system load and resource allocation",
            command := some "uptime && free -h && df -h",
            expected_result := "System resource overview",
            automation_possible := some true, risk_level := some "low",
            rollback_command := none },
          { step_number := 3, description := "Scale horizontally if using container orchestration",
            command := some "kubectl scale deployment [service-name] --replicas=5",
            expected_result := "Additional instances created",
            automation_possible := some true, risk_level := some "medium",
            rollback_command := some "kubectl scale deployment [service-name] --replicas=3" },
          { step_number := 4, description := "Monitor CPU usage stabilization",
            command := some "Monitor for 5 minutes",
            expected_result := "CPU usage below 80%",
            automation_possible := some false, risk_level := some "low",
            rollback_command := none } ]
      prerequisites := ["kubectl access", "monitoring access"]
      estimated_time := 15
      success_rate := 17/20 },
    { category := "database"
      severity_levels := ["critical", "high"]
      title := "Database Connection Pool Exhaustion"
      steps :=
        [ { step_number := 1, description := "Check current connection count",
            command := some "SELECT count(*) FROM pg_stat_activity;",
            expected_result := "Current active connections",
            automation_possible := some true, risk_level := some "low",
            rollback_command := none },
          { step_number := 2, description := "Identify long-running queries",
            command := some "SELECT query, state, query_start FROM pg_stat_activity WHERE state != 'idle' ORDER BY query_start;",
            expected_result := "List of active queries",
            automation_possible := some true, risk_level := some "low",
            rollback_command := none },
          { step_number := 3, description := "Terminate problematic connections",
            command := some "SELECT pg_terminate_backend(pid) FROM pg_stat_activity WHERE query_start < now() - interval '30 minutes';",
            expected_result := "Long-running connections terminated",
            automation_possible := some false, risk_level := some "high",
            rollback_command := none },
          { step_number := 4, description := "Restart application connection pools",
            command := some "kubectl rollout restart deployment [app-name]",
            expected_result := "Fresh connection pools",
            automation_possible := some true, risk_level := some "medium",
            rollback_command := none } ]
      prerequisites := ["database admin access", "kubectl access"]
      estimated_time := 10
      success_rate := 23/25 },
    { category := "application"
      severity_levels := ["critical", "high"]
      title := "Application Error Rate Resolution"
      steps :=
        [ { step_number := 1, description := "Check application logs for error patterns",
            command := some "kubectl logs -l app=[service-name] --tail=100 | grep ERROR",
            expected_result := "Recent error log entries",
            automation_possible := some true, risk_level := some "low",
            rollback_command := none },
          { step_number := 2, description := "Verify service health endpoints",
            command := some "curl -f http://[service]/health",
            expected_result := "Health check returns 200 OK",
            automation_possible := some true, risk_level := some "low",
            rollback_command := none },
          { step_number := 3, description := "Restart affected service pods",
            command := some "kubectl rollout restart deployment [service-name]",
            expected_result := "Service pods restarted successfully",
            automation_possible := some true, risk_level := some "medium",
            rollback_command := none },
          { step_number := 4, description := "Monitor error rate recovery",
            command := some "Monitor error metrics for 10 minutes",
            expected_result := "Error rate returns to baseline",
            automation_possible := some false, risk_level := some "low",
            rollback_command := none } ]
      prerequisites := ["kubectl access", "service logs access"]
      estimated_time := 12
      success_rate := 39/50 },
    { category := "network"
      severity_levels := ["high", "medium"]
      title := "Network Latency Resolution"
      steps :=
        [ { step_number := 1, description := "Test network connectivity and latency",
            command := some "ping -c 10 [target-host] && traceroute [target-host]",
            expected_result := "Network path analysis",
            automation_possible := some true, risk_level := some "low",
            rollback_command := none },
          { step_number := 2, description := "Check load balancer health",
            command := some "Check load balancer status and backend health",
            expected_result := "All backends healthy",
            automation_possible := some false, risk_level := some "low",
            rollback_command := none },
          { step_number := 3, description := "Enable CDN or adjust routing",
            command := some "Update CDN configuration or DNS routing",
            expected_result := "Traffic optimized through best path",
            automation_possible := some false, risk_level := some "medium",
            rollback_command := none } ]
      prerequisites := ["network admin access", "CDN access"]
      estimated_time := 8
      success_rate := 22/25 } ]

/-- `ResolutionAdvisorTool._find_matching_runbooks` (the loop appends in
catalog order, so a `filter` is the exact translation; `matched[:2]`). -/
def findMatchingRunbooks (category severity : String) : List RunbookData :=
  let matched := runbookDB.filter (fun rb =>
    (rb.category = category ∨
      (category = "infrastructure" ∧ rb.category ∈ ["cpu", "memory", "disk"])) ∧
    severity ∈ rb.severity_levels)
  let matched := if matched = [] then
      runbookDB.filter (fun rb => severity ∈ rb.severity_levels)
    else matched
  matched.take 2

/-- `ResolutionAdvisorTool._generate_generic_steps`. -/
def genericSteps (category severity : String) : List RStep :=
  [ { step_number := 1
      description := "Investigate " ++ category ++ " incident details"
      command := "Review monitoring dashboards and logs"
      expected_result := "Root cause identified"
      automation_possible := false, risk_level := "low", rollback_command := "" },
    { step_number := 2
      description := "Apply immediate mitigation if available"
      command := "Execute appropriate mitigation steps"
      expected_result := "Incident impact reduced"
      automation_possible := false, risk_level := "medium", rollback_command := "" } ]
  ++ (if severity = "critical" ∨ severity = "high" then
        [ { step_number := 3
            description := "Escalate to on-call engineer"
            command := "Page on-call engineer with incident details"
            expected_result := "Expert engaged for resolution"
            automation_possible := true, risk_level := "low", rollback_command := "" } ]
      else [])

/-- `ResolutionAdvisorTool._generate_resolution_steps`: steps come verbatim
from the first matched runbook, with the `.get` defaults applied. -/
def generateResolutionSteps (runbooks : List RunbookData) (category severity : String) :
    List RStep :=
  match runbooks with
  | [] => genericSteps category severity
  | primary :: _ =>
    primary.steps.map (fun sd =>
      { step_number := sd.step_number
        description := sd.description
        command := sd.command.getD ""
        expected_result := sd.expected_result
        automation_possible := sd.automation_possible.getD false
        risk_level := sd.risk_level.getD "medium"
        rollback_command := sd.rollback_command.getD "" })

/-- `ResolutionAdvisorTool._estimate_resolution_time`: `int(...)` truncates
toward zero, which on the nonnegative values here is the floor. -/
def estimateResolutionTime (steps : List RStep) (severity : String) : ℤ :=
  let base : ℚ := (steps.length : ℚ) * 3
  let base := if severity = "critical" then base * (3/2)
              else if severity = "low" then base * (4/5)
              else base
  let base := base + (steps.countP (fun s => !s.automation_possible) : ℚ) * 2
  max ⌊base⌋ 5

/-- `ResolutionAdvisorTool._calculate_success_probability`. -/
def calculateSuccessProbability (runbooks : List RunbookData) (confidence : ℚ)
    (severity : String) : ℚ :=
  if runbooks = [] then 3/5
  else
    let avgSuccessRate := (runbooks.map (fun rb => rb.success_rate)).sum / (runbooks.length : ℚ)
    let probability := avgSuccessRate * (7/10 + 3/10 * confidence)
    let probability := if severity = "critical" then probability * (9/10)
                       else if severity = "low" then probability * (11/10)
                       else probability
    min probability (19/20)

/-- The success-probability rule as the specification words it: the average
historical success rate across matched runbooks — 0.7 when none matched —
scaled by (0.7 + 0.3 × confidence), ×0.9 when severity is critical,
×1.1 when low, capped at 0.95.  Stated separately from the translation of
the code so that the two can be compared. -/
def successProbabilitySpec (runbooks : List RunbookData) (confidence : ℚ)
    (severity : String) : ℚ :=
  let base := if runbooks = [] then 7/10
              else (runbooks.map (fun rb => rb.success_rate)).sum / (runbooks.length : ℚ)
  let probability := base * (7/10 + 3/10 * confidence)
  let probability := if severity = "critical" then probability * (9/10)
                     else if severity = "low" then probability * (11/10)
                     else probability
  min probability (19/20)

/-- `ResolutionAdvisorTool._requires_human_approval`. -/
def requiresHumanApproval (steps : List RStep) (severity : String) : Bool :=
  severity = "critical"
  || steps.any (fun s => s.risk_level = "high")
  || steps.any (fun s => strContainsSub (strLower s.command) "database"
                         || strContainsSub s.command "pg_")

/-- `ResolutionAdvisorTool._identify_parallel_actions`. -/
def identifyParallelActions (steps : List RStep) : List String :=
  (if 1 < steps.countP (fun s => strContainsSub (strLower s.description) "monitor") then
    ["Multiple monitoring tasks can be executed simultaneously"]
  else [])
  ++ (if 1 < steps.countP (fun s =>
        containsAny (strLower s.description) ["check", "analyze", "review"]) then
    ["Investigation and analysis steps can run concurrently"]
  else [])

/-- `ResolutionAdvisorTool._generate_rollback_plan`. -/
def generateRollbackPlan (steps : List RStep) : List String :=
  let rollback := (steps.reverse.filter (fun s => s.rollback_command ≠ "")).map
    (fun s => "Step " ++ toString s.step_number ++ " rollback: " ++ s.rollback_command)
  if rollback = [] then
    [ "No specific rollback commands available",
      "Monitor system state and manually revert changes if needed",
      "Restore from backup if system state is compromised" ]
  else
    "Execute rollback commands in the following order:" :: rollback

/-- Insert into a list unless already present (used to model the Python
`set` of `_gather_prerequisites` as a first-insertion-ordered list without
duplicates; set iteration order is not otherwise observable in the claims
examined here). -/
def insertUnique (l : List String) (x : String) : List String :=
  if x ∈ l then l else l ++ [x]

/-- `ResolutionAdvisorTool._gather_prerequisites`. -/
def gatherPrerequisites (runbooks : List RunbookData) (category : String) : List String :=
  let prereqs := runbooks.foldl (fun acc rb => rb.prerequisites.foldl insertUnique acc) []
  let prereqs := if category = "database" then insertUnique prereqs "database admin access" else prereqs
  let prereqs := if category = "infrastructure" then insertUnique prereqs "system admin access" else prereqs
  if category = "application" then insertUnique prereqs "kubectl access" else prereqs

/-- `ResolutionAdvisorTool._generate_reasoning`. -/
def generateAdvisorReasoning (category severity : String) (runbook_count : ℕ)
    (success_prob : ℚ) : String :=
  let parts : List String :=
    ["Resolution approach selected for " ++ category ++ " incident with "
      ++ severity ++ " severity."]
    ++ (if 0 < runbook_count then
          ["Matched " ++ toString runbook_count ++ " proven runbook(s) for this incident type."]
        else
          ["No specific runbooks matched - using generic resolution approach."])
    ++ (if (4 : ℚ)/5 < success_prob then
          ["High probability of successful resolution based on historical data."]
        else if success_prob < (3 : ℚ)/5 then
          ["Moderate success probability - consider escalation if initial steps fail."]
        else [])
    ++ (if severity = "critical" then
          ["Critical severity requires immediate action and human oversight."]
        else [])
  String.intercalate " " parts

/-- The resolution-plan dict returned by `ResolutionAdvisorTool.run`
(the `generated_at` clock field is omitted). -/
structure PlanOut where
  incident_id : String
  recommended_steps : List RStep
  estimated_time_minutes : ℤ
  success_probability : ℚ
  human_approval_required : Bool
  parallel_actions : List String
  rollback_plan : List String
  prerequisites : List String
  reasoning : String
deriving DecidableEq

/-- Body of the `try` block of `ResolutionAdvisorTool.run` once the
classification fields have been extracted. -/
def advisorPlanFor (category severity : String) (confidence : ℚ) (incident_id : String) :
    PlanOut :=
  let matched := findMatchingRunbooks category severity
  let steps := generateResolutionSteps matched category severity
  let successProb := calculateSuccessProbability matched confidence severity
  { incident_id := incident_id
    recommended_steps := steps
    estimated_time_minutes := estimateResolutionTime steps severity
    success_probability := successProb
    human_approval_required := requiresHumanApproval steps severity
    parallel_actions := identifyParallelActions steps
    rollback_plan := generateRollbackPlan steps
    prerequisites := gatherPrerequisites matched category
    reasoning := generateAdvisorReasoning category severity matched.length successProb }

/-- An arbitrary classification payload dict (the data a caller would like
`ResolutionAdvisorTool.run` to use). -/
structure ClassifDict where
  category : Option String
  severity : Option String
  confidence : Option ℚ
  incident_id : Option String
deriving DecidableEq

/-- The `context` argument of `ResolutionAdvisorTool.run` as its callers pass
it: Python `None`, or a plain classification dict (as in
`simple_orchestrator.py`, which passes the classifier's output dict
positionally). -/
inductive AdvisorContext where
  | pyNone
  | plainDict (d : ClassifDict)
deriving DecidableEq

/-- `getattr(context, key, None)` for the probed attribute names
(`classification_data`, `classification`, `input`, `inputs`,
`incident_context`, `kwargs`): `None` has none of these attributes and a
plain `dict` exposes its items as subscripts, not attributes, so every probe
misses. -/
def contextGetattr : AdvisorContext → String → Option ClassifDict
  | .pyNone, _ => none
  | .plainDict _, _ => none

/-- `hasattr(context, 'kwargs')`: false for `None` and for a plain dict. -/
def contextHasKwargs : AdvisorContext → Bool
  | .pyNone => false
  | .plainDict _ => false

/-- The probing loop of `ResolutionAdvisorTool.run` over the candidate
attribute names (the `context.kwargs.get(key)` fallback is guarded by
`hasattr(context, 'kwargs')`). -/
def probeKeys (ctx : AdvisorContext) : List String → Option ClassifDict
  | [] => none
  | key :: rest =>
    match contextGetattr ctx key with
    | some v => some v
    | none =>
      match (if contextHasKwargs ctx then contextGetattr ctx key else none) with
      | some v => some v
      | none => probeKeys ctx rest

/-- The classification-extraction preamble of `ResolutionAdvisorTool.run`:
skipped entirely when `context is None`. -/
def extractClassificationData (ctx : AdvisorContext) : Option ClassifDict :=
  match ctx with
  | .pyNone => none
  | _ => probeKeys ctx ["classification_data", "classification", "input", "inputs"]

/-- `ResolutionAdvisorTool.run`: when extraction yields nothing the
classification defaults to `{"category": "unknown", "severity": "medium"}`,
and the subsequent `.get` calls default `confidence` to 0.5 and
`incident_id` to "unknown". -/
def advisorRun (ctx : AdvisorContext) : PlanOut :=
  let classification :=
    match extractClassificationData ctx with
    | some d => d
    | none => { category := some "unknown", severity := some "medium",
                confidence := none, incident_id := none }
  advisorPlanFor (classification.category.getD "unknown")
    (classification.severity.getD "medium")
    (classification.confidence.getD (1/2))
    (classification.incident_id.getD "unknown")

/-!
## Post-mortem generator (`backend/agents/postmortem_generator.py`)

Timestamps are modelled as integer seconds (`datetime.fromisoformat` of a
recorded ISO string is the identity of the model); the wall clock
`datetime.now()` used as a default for missing timestamps is the parameter
`now`.  Action-item due dates are modelled as day offsets from the
generation clock.  The `markdown_report` field (a textual rendering of the
other report fields interleaved with the generation-time clock) and the
`generated_at` field are omitted from the modelled output.
-/

/-- A value inside a resolution-step dict. -/
inductive PyVal where
  | str (s : String)
  | bool (b : Bool)
  | int (n : ℤ)
deriving DecidableEq

/-- Python `repr` of a dict value. -/
def pyValRepr : PyVal → String
  | .str s => "'" ++ s ++ "'"
  | .bool true => "True"
  | .bool false => "False"
  | .int n => toString n

/-- A resolution-step dict as the post-mortem generator receives it:
insertion-ordered key/value pairs. -/
structure PMStepDict where
  entries : List (String × PyVal)
deriving DecidableEq

/-- Python `str(step)` for a step dict (insertion-ordered `repr`). -/
def stepRepr (s : PMStepDict) : String :=
  "\x7b" ++ String.intercalate ", "
    (s.entries.map (fun kv => "'" ++ kv.1 ++ "': " ++ pyValRepr kv.2)) ++ "\x7d"

/-- `step.get(key, default)` for string values. -/
def stepGetStr (s : PMStepDict) (key dflt : String) : String :=
  match s.entries.lookup key with
  | some (.str v) => v
  | _ => dflt

/-- `step.get(key, False)` for boolean values. -/
def stepGetBool (s : PMStepDict) (key : String) : Bool :=
  match s.entries.lookup key with
  | some (.bool v) => v
  | _ => false

/-- The `result` payload of a timeline entry, modelled by the two keys the
generator probes (`success`, `message`); `resultTruthy` models the Python
truthiness test `isinstance(result, dict) and result`. -/
structure PMResult where
  success : Option Bool
  message : Option String
deriving DecidableEq

def resultTruthy (r : PMResult) : Bool :=
  r.success.isSome || r.message.isSome

/-- A recorded incident timeline entry dict (probed keys optional). -/
structure PMEntryIn where
  timestamp : Option ℤ
  agent : Option String
  action : Option String
  result : PMResult
  duration_ms : Option ℕ
deriving DecidableEq

/-- The `alert` dict of an incident snapshot. -/
structure PMAlert where
  timestamp : Option ℤ
  message : Option String
  source_system : Option String
  affected_services : List String
  metrics : List (String × ℚ)
deriving DecidableEq

/-- The `classification` dict of an incident snapshot. -/
structure PMClassification where
  category : Option String
  severity : Option String
  confidence : Option ℚ
deriving DecidableEq

/-- The `resolution_data` dict. -/
structure PMResolutionData where
  success : Option Bool
  recommended_steps : List PMStepDict
deriving DecidableEq

/-- `{}`: the empty resolution dict. -/
def emptyResolution : PMResolutionData :=
  { success := none, recommended_steps := [] }

/-- An incident snapshot dict as passed to `PostMortemGeneratorTool.run`
(missing sub-dicts are `none`, a missing timeline is `[]`). -/
structure IncidentIn where
  incident_id : Option String
  alert : Option PMAlert
  classification : Option PMClassification
  timeline : List PMEntryIn
  resolution_data : Option PMResolutionData
deriving DecidableEq

def emptyPMAlert : PMAlert :=
  { timestamp := none, message := none, source_system := none,
    affected_services := [], metrics := [] }

def emptyPMClassification : PMClassification :=
  { category := none, severity := none, confidence := none }

/-- A reconstructed post-mortem timeline entry. -/
structure PMEntry where
  time : ℤ
  event : String
  details : String
  agent_action : Bool
deriving DecidableEq

/-- `PostMortemGeneratorTool._format_timeline_details`. -/
def formatTimelineDetails (e : PMEntryIn) : String :=
  let agent := e.agent.getD "Unknown"
  let duration := e.duration_ms.getD 0
  let details := "Agent: " ++ agent
  let details := if duration ≠ 0 then
      details ++ " (Duration: " ++ toString duration ++ "ms)"
    else details
  let details := if resultTruthy e.result then
      let details := match e.result.success with
        | some b => details ++ " - Success: " ++ (if b then "True" else "False")
        | none => details
      match e.result.message with
      | some m => details ++ " - " ++ m
      | none => details
    else details
  details

/-- Stable insertion of an element after all already-placed elements with a
key less than or equal to its own. -/
def stableInsert (x : PMEntry) : List PMEntry → List PMEntry
  | [] => [x]
  | y :: ys => if y.time ≤ x.time then y :: stableInsert x ys else x :: y :: ys

/-- Python's stable `list.sort(key=lambda x: x.time)`, modelled as a stable
insertion sort. -/
def sortByTime (l : List PMEntry) : List PMEntry :=
  l.foldl (fun acc x => stableInsert x acc) []

/-- `PostMortemGeneratorTool._reconstruct_timeline`: prepend the synthetic
detection entry derived from the alert, append the recorded entries, sort
stably by timestamp. -/
def reconstructTimeline (timeline_data : List PMEntryIn) (alert : PMAlert) (now : ℤ) :
    List PMEntry :=
  let head : PMEntry :=
    { time := alert.timestamp.getD now
      event := "Incident Detected"
      details := "Alert: " ++ alert.message.getD "Unknown alert"
      agent_action := false }
  let rest := timeline_data.map (fun e =>
    { time := e.timestamp.getD now
      event := e.action.getD "Unknown action"
      details := formatTimelineDetails e
      agent_action := (e.agent.getD "").startsWith "AI"
                      || strContainsSub (e.agent.getD "") "Agent" : PMEntry })
  sortByTime (head :: rest)

/-- The executive summary (`_generate_summary`): the duration is the
last-minus-first timestamp of the reconstructed timeline (rendered by the
code as a `timedelta` string, zero duration printing as `0:00:00`). -/
structure PMSummary where
  title : String
  duration : ℤ
  impact : String
  root_cause : String
  status : String
deriving DecidableEq

/-- `PostMortemGeneratorTool._assess_impact`. -/
def pmAssessImpact (severity : String) (affected_services : List String) : String :=
  let serviceCount := affected_services.length
  if severity = "critical" then
    if 3 < serviceCount then "High - Multiple critical services affected, significant user impact"
    else "Medium-High - Critical severity but limited service scope"
  else if severity = "high" then
    if 2 < serviceCount then "Medium - Multiple services affected"
    else "Medium-Low - Limited service impact"
  else if severity = "medium" then "Low-Medium - Minor service disruption"
  else "Low - Minimal impact"

/-- `PostMortemGeneratorTool._extract_primary_cause`. -/
def extractPrimaryCause (alert : PMAlert) (classification : PMClassification) : String :=
  let message := strLower (alert.message.getD "")
  let category := classification.category.getD "unknown"
  if strContainsSub message "cpu" || strContainsSub message "memory" then
    "Resource exhaustion"
  else if strContainsSub message "connection" then
    "Connection pool exhaustion"
  else if strContainsSub message "timeout" || strContainsSub message "latency" then
    "Performance degradation"
  else if strContainsSub message "error rate" then
    "Application errors"
  else if strContainsSub message "disk" || strContainsSub message "storage" then
    "Storage capacity issue"
  else
    "Unknown - requires investigation (" ++ category ++ " related)"

/-- `PostMortemGeneratorTool._generate_summary`. -/
def generateSummary (inc : IncidentIn) (resolution_data : PMResolutionData)
    (timeline : List PMEntry) (now : ℤ) : PMSummary :=
  let alert := inc.alert.getD emptyPMAlert
  let classification := inc.classification.getD emptyPMClassification
  let startTime := match timeline with
    | [] => now
    | t :: _ => t.time
  let endTime := match timeline.getLast? with
    | none => startTime
    | some t => t.time
  let severity := classification.severity.getD "unknown"
  { title := classification.category.getD "Unknown" ++ " Incident - "
      ++ alert.source_system.getD "Unknown System"
    duration := endTime - startTime
    impact := pmAssessImpact severity alert.affected_services
    root_cause := extractPrimaryCause alert classification
    status := if resolution_data.success.getD false then "Resolved" else "Ongoing" }

/-- The resolution-effectiveness block (`_analyze_resolution_effectiveness`). -/
structure PMEffectiveness where
  overall_success : Bool
  resolution_time_minutes : ℤ
  automated_actions : ℕ
  manual_interventions : ℤ
  effective_steps : List String
  ineffective_steps : List String
  automation_rate : ℚ
deriving DecidableEq

/-- The per-step effectiveness heuristic of
`_analyze_resolution_effectiveness`:
`"success" in str(step).lower() or step.get("automation_possible", False)`. -/
def stepLooksEffective (s : PMStepDict) : Bool :=
  strContainsSub (strLower (stepRepr s)) "success" || stepGetBool s "automation_possible"

/-- `PostMortemGeneratorTool._analyze_resolution_effectiveness`. -/
def analyzeResolutionEffectiveness (resolution_data : PMResolutionData)
    (timeline : List PMEntry) : PMEffectiveness :=
  let steps := resolution_data.recommended_steps
  let success := resolution_data.success.getD false
  let automated := timeline.countP (fun e => e.agent_action)
  let manual : ℤ := (timeline.length : ℤ) - (automated : ℤ) - 1
  let resolutionTime : ℤ :=
    if 2 ≤ timeline.length then
      match timeline, timeline.getLast? with
      | t :: _, some l => (l.time - t.time) / 60
      | _, _ => 0
    else 0
  let considered := steps.enum.filter (fun p => p.1 < timeline.length - 1)
  { overall_success := success
    resolution_time_minutes := resolutionTime
    automated_actions := automated
    manual_interventions := manual
    effective_steps := (considered.filter (fun p => stepLooksEffective p.2)).map
      (fun p => stepGetStr p.2 "description" ("Step " ++ toString (p.1 + 1)))
    ineffective_steps := (considered.filter (fun p => !stepLooksEffective p.2)).map
      (fun p => stepGetStr p.2 "description" ("Step " ++ toString (p.1 + 1)))
    automation_rate := (automated : ℚ) / (max (timeline.length - 1) 1 : ℕ) }

/-- `PostMortemGeneratorTool._extract_lessons_learned`. -/
def extractLessonsLearned (inc : IncidentIn) (eff : PMEffectiveness) : List String :=
  let classification := inc.classification.getD emptyPMClassification
  let confidence := classification.confidence.getD 0
  let category := classification.category.getD ""
  let severity := classification.severity.getD ""
  let lessons :=
    (if confidence < (7 : ℚ)/10 then
      ["Improve alert classification accuracy through better data collection"] else [])
    ++ (if eff.automation_rate < (1 : ℚ)/2 then
      ["Increase automation for common resolution steps"] else [])
    ++ (if 30 < eff.resolution_time_minutes then
      ["Optimize response time through better automation and runbook improvements"] else [])
    ++ (if 2 < eff.manual_interventions then
      ["Reduce manual intervention requirements through improved automation"] else [])
    ++ (if category = "database" then
      ["Consider implementing connection pool monitoring and auto-scaling"]
    else if category = "infrastructure" then
      ["Implement predictive monitoring to catch resource issues earlier"]
    else if category = "application" then
      ["Improve application health checks and circuit breaker patterns"]
    else [])
    ++ (if severity = "critical" then
      ["Critical incidents require immediate escalation protocols"] else [])
  if lessons = [] then ["Incident handled effectively - maintain current processes"]
  else lessons

/-- An action item; `due_days` is the day offset added to the generation
clock by the code. -/
structure PMActionItem where
  description : String
  owner : String
  priority : String
  due_days : ℕ
  category : String
deriving DecidableEq

/-- `PostMortemGeneratorTool._generate_action_items`. -/
def generateActionItems (lessons : List String) (eff : PMEffectiveness)
    (classification : PMClassification) : List PMActionItem :=
  (lessons.flatMap (fun lesson =>
    if strContainsSub (strLower lesson) "automation" then
      [{ description := "Implement additional automation for identified manual steps",
         owner := "DevOps Team", priority := "high", due_days := 14,
         category := "automation" }]
    else if strContainsSub (strLower lesson) "monitoring" then
      [{ description := "Enhance monitoring thresholds and alert accuracy",
         owner := "SRE Team", priority := "medium", due_days := 21,
         category := "monitoring" }]
    else []))
  ++ (if 20 < eff.resolution_time_minutes then
    [{ description := "Review and optimize incident response runbooks",
       owner := "On-call Team", priority := "medium", due_days := 10,
       category := "process" }]
  else [])
  ++ (if classification.category.getD "" = "database" then
    [{ description := "Implement database connection pool monitoring dashboard",
       owner := "Database Team", priority := "high", due_days := 7,
       category := "infrastructure" }]
  else [])
  ++ [{ description := "Update incident response documentation with lessons learned",
        owner := "Documentation Team", priority := "low", due_days := 30,
        category := "documentation" }]

/-- The metrics block (`_calculate_incident_metrics`); durations are kept as
exact rationals (the code's `round(·, 1)` presentation rounding is not
modelled). -/
structure PMMetrics where
  total_duration_minutes : ℚ
  mean_time_to_recovery : ℚ
  agent_actions_count : ℕ
  human_actions_count : ℤ
  automation_percentage : ℚ
  timeline_entries : ℕ
  resolution_success : Bool
deriving DecidableEq

/-- `PostMortemGeneratorTool._calculate_incident_metrics`: returns the empty
dict (`none`) on an empty timeline. -/
def calculateIncidentMetrics (timeline : List PMEntry)
    (resolution_data : PMResolutionData) : Option PMMetrics :=
  match timeline, timeline.getLast? with
  | t :: _, some l =>
    let totalDuration : ℚ := ((l.time - t.time : ℤ) : ℚ) / 60
    let agentActions := timeline.countP (fun e => e.agent_action)
    some
      { total_duration_minutes := totalDuration
        mean_time_to_recovery := totalDuration
        agent_actions_count := agentActions
        human_actions_count := (timeline.length : ℤ) - (agentActions : ℤ) - 1
        automation_percentage := (agentActions : ℚ) / (max (timeline.length - 1) 1 : ℕ) * 100
        timeline_entries := timeline.length
        resolution_success := resolution_data.success.getD false }
  | _, _ => none

/-- `PostMortemGeneratorTool._generate_recommendations`. -/
def generateRecommendations (eff : PMEffectiveness) (metrics : Option PMMetrics) :
    List String :=
  let resolutionTime := match metrics with
    | some m => m.total_duration_minutes
    | none => 0
  (if eff.automation_rate < (7 : ℚ)/10 then
    ["Increase automation coverage for incident response procedures"] else [])
  ++ (if 15 < resolutionTime then
    ["Implement faster detection and response mechanisms"] else [])
  ++ (if 3 < eff.manual_interventions then
    ["Reduce manual intervention requirements through better tooling"] else [])
  ++ [ "Conduct regular incident response drills to improve team readiness",
       "Review and update monitoring thresholds based on incident patterns",
       "Implement chaos engineering practices to proactively identify weaknesses" ]

/-- `PostMortemGeneratorTool._analyze_root_cause`. -/
def analyzeRootCause (alert : PMAlert) (classification : PMClassification)
    (timeline : List PMEntry) : String :=
  let primaryCause := extractPrimaryCause alert classification
  let message := alert.message.getD ""
  let metrics := alert.metrics
  let analysis := "**Primary Cause:** " ++ primaryCause ++ "\n\n"
  let analysis := analysis ++ "**Alert Details:** " ++ message ++ "\n\n"
  let analysis := if metrics ≠ [] then
      analysis ++ "**Contributing Factors:**\n"
      ++ (if 90 < mget metrics "cpu_usage" then
            "- High CPU usage: " ++ toString (mget metrics "cpu_usage") ++ "%\n" else "")
      ++ (if 85 < mget metrics "memory_usage" then
            "- High memory usage: " ++ toString (mget metrics "memory_usage") ++ "%\n" else "")
      ++ (if (1 : ℚ)/20 < mget metrics "error_rate" then
            "- Elevated error rate: " ++ toString (mget metrics "error_rate" * 100) ++ "%\n" else "")
      ++ (if 3000 < mget metrics "response_time" then
            "- Slow response time: " ++ toString (mget metrics "response_time") ++ "ms\n" else "")
    else analysis
  let agentActions := timeline.countP (fun e => e.agent_action)
  let analysis := if 0 < agentActions then
      analysis ++ "\n**Agent Response:** " ++ toString agentActions ++ " automated actions taken\n"
    else analysis
  analysis ++ "\n**Recommendation:** Implement monitoring thresholds and automated scaling to prevent recurrence."

/-- The report dict returned by `PostMortemGeneratorTool.run` (without the
`markdown_report` rendering and the `generated_at` clock field). -/
structure ReportOut where
  incident_id : String
  summary : PMSummary
  timeline : List PMEntry
  root_cause_analysis : String
  resolution_effectiveness : PMEffectiveness
  lessons_learned : List String
  action_items : List PMActionItem
  metrics : Option PMMetrics
  recommendations : List String
deriving DecidableEq

/-- `PostMortemGeneratorTool.run` on a parsed incident snapshot.
`passedResolution` is whatever the context-extraction preamble produced for
`resolution_data`; the body then rebinds
`resolution_data = incident.get("resolution_data", {})`, so the passed value
is dead before first use. -/
def postmortemRun (inc : IncidentIn) (passedResolution : PMResolutionData) (now : ℤ) :
    ReportOut :=
  let _ := passedResolution
  let incident_id := inc.incident_id.getD "unknown"
  let alert := inc.alert.getD emptyPMAlert
  let classification := inc.classification.getD emptyPMClassification
  let resolution_data := inc.resolution_data.getD emptyResolution
  let timeline := reconstructTimeline inc.timeline alert now
  let summary := generateSummary inc resolution_data timeline now
  let eff := analyzeResolutionEffectiveness resolution_data timeline
  let lessons := extractLessonsLearned inc eff
  let metrics := calculateIncidentMetrics timeline resolution_data
  { incident_id := incident_id
    summary := summary
    timeline := timeline
    root_cause_analysis := analyzeRootCause alert classification timeline
    resolution_effectiveness := eff
    lessons_learned := lessons
    action_items := generateActionItems lessons eff classification
    metrics := metrics
    recommendations := generateRecommendations eff metrics }

/-!
## Orchestrator (`backend/agents/orchestrator.py`, `backend/simple_orchestrator.py`)
-/

/-- A `recommended_steps` dict entry as probed by
`DevOpsCrisisCommander._simulate_resolution_execution`. -/
structure ExecPlanStep where
  step_number : Option ℕ
  description : Option String
deriving DecidableEq

/-- The resolution-plan dict fields the simulator probes. -/
structure ExecPlan where
  recommended_steps : List ExecPlanStep
  estimated_time_minutes : Option ℚ
  success_probability : Option ℚ
deriving DecidableEq

/-- One executed-step record of the simulation. -/
structure ExecStep where
  step_number : ℕ
  description : String
  success : Bool
  duration_ms : ℕ
deriving DecidableEq

/-- The execution-result dict of `_simulate_resolution_execution`. -/
structure ExecResult where
  success : Bool
  executed_steps : List ExecStep
  total_steps : ℕ
  duration_ms : ℕ
deriving DecidableEq

/-- The step loop of `_simulate_resolution_execution` over the enumerated
step prefix: step `i` consumes the pseudo-random draw `draws (i+1)` (draw 0
is the overall-outcome draw) and duration `durs i`; the loop breaks at the
first failing step.  Returns the executed-step records and whether a step
failed. -/
def execLoop (draws : ℕ → ℚ) (durs : ℕ → ℕ) :
    List (ℕ × ExecPlanStep) → List ExecStep × Bool
  | [] => ([], false)
  | (i, st) :: rest =>
    let stepSuccess := decide (draws (i + 1) < 9/10)
    let ex : ExecStep :=
      { step_number := st.step_number.getD (i + 1)
        description := st.description.getD "Unknown step"
        success := stepSuccess
        duration_ms := durs i }
    if stepSuccess then
      let r := execLoop draws durs rest
      (ex :: r.1, r.2)
    else
      ([ex], true)

/-- `DevOpsCrisisCommander._simulate_resolution_execution`: overall success
is drawn first, weighted by the plan's success probability (default 0.8);
then at most the first 3 plan steps are executed, each succeeding when its
own draw is below 0.9, and any step failure forces overall success false. -/
def simulateResolutionExecution (plan : ExecPlan) (draws : ℕ → ℚ) (durs : ℕ → ℕ) :
    ExecResult :=
  let steps := plan.recommended_steps
  let successProb := plan.success_probability.getD (4/5)
  let initialSuccess := decide (draws 0 < successProb)
  let r := execLoop draws durs (steps.take 3).enum
  { success := initialSuccess && !r.2
    executed_steps := r.1
    total_steps := steps.length
    duration_ms := (r.1.map (fun e => e.duration_ms)).sum }

/-- Incident status values used by the pipeline. -/
inductive IStatus where
  | detected
  | analyzing
  | resolving
  | resolved
deriving DecidableEq

/-- An incident record as far as the lifecycle claims observe it. -/
structure IncidentRec where
  id : String
  status : IStatus
  resolved_at : Option ℤ
deriving DecidableEq

/-- The two incident collections of `DevOpsCrisisCommander`. -/
structure OrchState where
  active : List IncidentRec
  completed : List IncidentRec
deriving DecidableEq

def recIds (l : List IncidentRec) : List String := l.map (fun i => i.id)

/-- `_update_incident_status` restricted to the stored record (the broadcast
that follows is modelled separately). -/
def setStatus (l : List IncidentRec) (ident : String) (st : IStatus) : List IncidentRec :=
  l.map (fun i => if i.id = ident then { i with status := st } else i)

/-- `incident.resolved_at = datetime.now()` on the stored record. -/
def setResolvedAt (l : List IncidentRec) (ident : String) (t : ℤ) : List IncidentRec :=
  l.map (fun i => if i.id = ident then { i with resolved_at := some t } else i)

/-- Look an incident up across both collections
(`get_incident_by_id`: active first, then completed). -/
def lookupInc (s : OrchState) (ident : String) : Option IncidentRec :=
  (s.active ++ s.completed).find? (fun i => i.id = ident)

/-- The observation points of `DevOpsCrisisCommander.process_alert` for one
incident with fresh id `fresh`, parameterised by the aggregate outcome
`execSuccess` of the simulated execution (`execution_result["success"]`) and
the resolution clock `t`.  Each trace element is the collection state at an
`await` suspension point: after creation and storage; after the
`Detected → Analyzing` update; after the `Analyzing → Resolving` update
(classification, plan matching and simulated execution run within it); after
the post-execution status decision; and after the completed-collection move
(the `completed[id] = incident; del active[id]` pair is synchronous, hence
atomic under cooperative scheduling). -/
def processAlertTrace (fresh : String) (execSuccess : Bool) (t : ℤ) (s0 : OrchState) :
    List OrchState :=
  let s1 : OrchState := { s0 with active := ⟨fresh, .detected, none⟩ :: s0.active }
  let s2 : OrchState := { s1 with active := setStatus s1.active fresh .analyzing }
  let s3 : OrchState := { s2 with active := setStatus s2.active fresh .resolving }
  let s4 : OrchState :=
    if execSuccess then
      { s3 with active := setResolvedAt (setStatus s3.active fresh .resolved) fresh t }
    else
      { s3 with active := setStatus s3.active fresh .resolving }
  let s5 : OrchState :=
    match s4.active.find? (fun i => i.id = fresh) with
    | some inc =>
      if inc.status = .resolved then
        { active := s4.active.filter (fun i => i.id ≠ fresh)
          completed := inc :: s4.completed }
      else s4
    | none => s4
  [s1, s2, s3, s4, s5]

/-- A lifecycle notification message as observers receive it: its `type`
tag, the keys of its `data` payload, and whether the delivered message
carries a `timestamp` field (for `DevOpsCrisisCommander` the
`WebSocketMessage` wrapper adds a default timestamp; `SimpleCrisisCommander`
puts the key in the dict itself). -/
structure WsMessage where
  mtype : String
  dataFields : List String
  hasTimestamp : Bool
deriving DecidableEq

/-- The notification types named by the observer contract. -/
def claimedNotificationTypes : List String :=
  ["incident_created", "status_update", "incident_completed", "incident_error"]

/-- The broadcast call sites of `DevOpsCrisisCommander` (`process_alert`,
`_update_incident_status`); the `incident_error` site is unreachable (it
follows a `return`) but is listed as emitted for completeness. -/
def devopsEmittedMessages : List WsMessage :=
  [ { mtype := "incident_created", dataFields := ["incident_id", "alert", "status"],
      hasTimestamp := true },
    { mtype := "status_update", dataFields := ["incident_id", "status", "timestamp"],
      hasTimestamp := true },
    { mtype := "incident_completed", dataFields := ["incident_id", "status", "postmortem"],
      hasTimestamp := true },
    { mtype := "incident_error", dataFields := ["incident_id", "error"],
      hasTimestamp := true } ]

/-- The broadcast call sites of `SimpleCrisisCommander` (`process_alert`,
`_update_incident_status`, `_simulate_resolution`). -/
def simpleEmittedMessages : List WsMessage :=
  [ { mtype := "incident_created", dataFields := ["incident_id", "alert", "status"],
      hasTimestamp := true },
    { mtype := "incident_updated", dataFields := ["incident_id", "status", "timestamp"],
      hasTimestamp := true },
    { mtype := "incident_resolved", dataFields := ["incident_id", "postmortem"],
      hasTimestamp := true } ]

/-- A registered observer callback: delivery either returns or raises. -/
def Observer : Type := WsMessage → Except String Unit

/-- One delivery attempt inside the broadcast loop: the `except` around the
`await callback(...)` turns a raising callback into a logged failure. -/
def tryDeliver (cb : Observer) (m : WsMessage) : Bool :=
  match cb m with
  | .ok _ => true
  | .error _ => false

/-- The `for callback in self.websocket_callbacks: try ... except ...` loop
of `_broadcast_update` / `broadcast_update`: it visits every registered
callback in order and never propagates a callback's exception. -/
def deliverLoop (cbs : List Observer) (m : WsMessage) : List Bool :=
  match cbs with
  | [] => []
  | cb :: rest => tryDeliver cb m :: deliverLoop rest m

/-- The observer registry (`websocket_callbacks`). -/
structure FanoutState where
  websocket_callbacks : List Observer

/-- `_broadcast_update`: returns the registry (untouched) and the per-observer
delivery outcomes. -/
def broadcastUpdate (st : FanoutState) (m : WsMessage) : FanoutState × List Bool :=
  (st, deliverLoop st.websocket_callbacks m)

/-!
## Theorems
-/

theorem keywordBonus_nonneg (category message : String) :
    0 ≤ keywordBonus category message := by
  unfold keywordBonus
  cases categoryKeywords category with
  | none => norm_num
  | some ws => exact le_min (by positivity) (by norm_num)

theorem calculateConfidence_bounds (a : AlertInfo) (category severity : String) :
    0 ≤ calculateConfidence a category severity ∧ calculateConfidence a category severity ≤ 1 := by
  simp only [calculateConfidence]
  constructor
  · refine le_min ?_ (by norm_num)
    have hb := keywordBonus_nonneg category (strLower (a.message.getD ""))
    split_ifs <;> linarith
  · exact min_le_right _ _

/-- C4: `IncidentClassifierTool.run` is total — every input (well-typed
dict or JSON string, unparseable JSON, or data whose field access raises
inside the `try` block and is caught) yields a classification, and the
returned confidence lies in [0, 1]. -/
theorem classifier_total_confidence_in_unit_interval (inp : ClassifierInput) :
    0 ≤ (classifierRun inp).confidence ∧ (classifierRun inp).confidence ≤ 1 := by
  cases inp with
  | parsed a =>
    simpa [classifierRun, classifyAlert] using
      calculateConfidence_bounds a
        (determineCategory (strLower (a.alert_type.getD "")) (strLower (a.message.getD ""))
          a.affected_services)
        (assessSeverity (strLower (a.severity.getD "")) a.metrics (strLower (a.message.getD ""))
          (determineCategory (strLower (a.alert_type.getD "")) (strLower (a.message.getD ""))
            a.affected_services))
  | badJson raw =>
    simpa [classifierRun, classifyAlert] using
      calculateConfidence_bounds rawDataAlert
        (determineCategory (strLower (rawDataAlert.alert_type.getD ""))
          (strLower (rawDataAlert.message.getD "")) rawDataAlert.affected_services)
        (assessSeverity (strLower (rawDataAlert.severity.getD "")) rawDataAlert.metrics
          (strLower (rawDataAlert.message.getD ""))
          (determineCategory (strLower (rawDataAlert.alert_type.getD ""))
            (strLower (rawDataAlert.message.getD "")) rawDataAlert.affected_services))
  | erroring err =>
    constructor <;> simp [classifierRun, fallbackClassification] <;> norm_num

/-- C3: an alert whose (lowercased) message contains the substring
`database`, or whose declared alert type is `database`, is classified in
category `database` irrespective of every other field — the database
predicates sit first in `_determine_category`'s precedence order. -/
theorem database_alerts_classified_database (a : AlertInfo)
    (h : strContainsSub (strLower (a.message.getD "")) "database" = true ∨
         strLower (a.alert_type.getD "") = "database") :
    (classifierRun (.parsed a)).category = "database" := by
  show (classifyAlert a).category = "database"
  simp only [classifyAlert]
  rcases h with h | h
  · unfold determineCategory
    simp [containsAny, h]
  · unfold determineCategory
    by_cases hc : containsAny (strLower (a.message.getD ""))
        ["database", "connection", "query", "sql", "redis", "mongo"] = true
    · simp [hc]
    · have h2 : containsAny (strLower (a.alert_type.getD "")) ["database", "db"] = true := by
        rw [h]; decide
      simp only [Bool.not_eq_true] at hc
      simp [hc, h2]

/-- Witness for C3 at a concrete alert. -/
theorem database_alerts_classified_database_witness :
    (classifierRun (.parsed
      { id := some "a-1", alert_type := some "cpu", severity := some "high",
        metrics := [("cpu_usage", 97)], message := some "Database connection pool saturated",
        affected_services := ["web"], source_system := some "prometheus" })).category
      = "database" :=
  database_alerts_classified_database _ (Or.inl (by decide))

/-- C2 counterexample: for the classification (category `unknown`,
severity `low`, confidence 0.5) no runbook matches even after the severity
relaxation, and `_calculate_success_probability` then returns the flat
constant 0.6 — not the claimed 0.7 base put through the scaling and
severity adjustments, which would give 0.6545. -/
theorem success_probability_flat_when_no_runbook :
    findMatchingRunbooks "unknown" "low" = [] ∧
    calculateSuccessProbability (findMatchingRunbooks "unknown" "low") (1/2) "low" = 3/5 ∧
    successProbabilitySpec (findMatchingRunbooks "unknown" "low") (1/2) "low" = 1309/2000 ∧
    (3/5 : ℚ) ≠ 1309/2000 := by
  have h : findMatchingRunbooks "unknown" "low" = [] := by decide
  refine ⟨h, ?_, ?_, by norm_num⟩
  · rw [h]
    simp [calculateSuccessProbability]
  · rw [h]
    simp only [successProbabilitySpec]
    rw [if_neg (by decide : ¬("low" : String) = "critical")]
    norm_num [min_def]

/-- C2 amended: whenever at least one runbook matches, the code's success
probability equals the specified formula (average matched success rate,
scaled by 0.7 + 0.3 × confidence, ×0.9 for critical / ×1.1 for low severity,
capped at 0.95); when no runbook matches the code returns the constant 0.6
instead of putting a 0.7 base through that formula. -/
theorem success_probability_amended (runbooks : List RunbookData) (confidence : ℚ)
    (severity : String) :
    (runbooks ≠ [] →
      calculateSuccessProbability runbooks confidence severity =
        successProbabilitySpec runbooks confidence severity) ∧
    calculateSuccessProbability [] confidence severity = 3/5 := by
  constructor
  · intro h
    simp [calculateSuccessProbability, successProbabilitySpec, h]
  · simp [calculateSuccessProbability]

/-- Witness for C2's amended statement on the matched-runbook branch. -/
theorem success_probability_amended_witness :
    calculateSuccessProbability (findMatchingRunbooks "database" "high") (9/10) "high" =
      successProbabilitySpec (findMatchingRunbooks "database" "high") (9/10) "high" :=
  (success_probability_amended (findMatchingRunbooks "database" "high") (9/10) "high").1
    (by decide)

/-- C9: `ResolutionAdvisorTool.run` probes its `context` argument for
attributes a plain dict (or `None`) does not have, so any two plain-dict
classification payloads yield the same plan — always the plan computed for
the default classification (category `unknown`, severity `medium`,
confidence 0.5); the `generated_at` clock field is outside the modelled
output. -/
theorem advisor_plan_ignores_plain_dict_context (d1 d2 : ClassifDict) :
    advisorRun (.plainDict d1) = advisorRun (.plainDict d2) ∧
    advisorRun (.plainDict d1) = advisorRun .pyNone ∧
    advisorRun (.plainDict d1) = advisorPlanFor "unknown" "medium" (1/2) "unknown" :=
  ⟨rfl, rfl, rfl⟩

/-- C10: the resolution argument handed to `PostMortemGeneratorTool.run` is
rebound to `incident.get("resolution_data", {})` before first use, so the
report is independent of it; and when the incident snapshot lacks a
`resolution_data` key the summary status is `Ongoing` and
`resolution_effectiveness.overall_success` is false, whatever the actual
execution outcome was. -/
theorem postmortem_ignores_passed_resolution (inc : IncidentIn)
    (r1 r2 : PMResolutionData) (now : ℤ) :
    postmortemRun inc r1 now = postmortemRun inc r2 now ∧
    (inc.resolution_data = none →
      (postmortemRun inc r1 now).summary.status = "Ongoing" ∧
      (postmortemRun inc r1 now).resolution_effectiveness.overall_success = false) := by
  refine ⟨rfl, fun h => ⟨?_, ?_⟩⟩
  · simp [postmortemRun, generateSummary, h, emptyResolution]
  · simp [postmortemRun, analyzeResolutionEffectiveness, h, emptyResolution]

/-- Witness for C10 at a concrete snapshot without `resolution_data`,
against two different passed resolution payloads. -/
theorem postmortem_ignores_passed_resolution_witness :
    (postmortemRun
        { incident_id := some "INC-1", alert := none, classification := none,
          timeline := [], resolution_data := none }
        { success := some true, recommended_steps := [] } 0).summary.status = "Ongoing" ∧
    (postmortemRun
        { incident_id := some "INC-1", alert := none, classification := none,
          timeline := [], resolution_data := none }
        { success := some true, recommended_steps := [] } 0).resolution_effectiveness.overall_success
      = false :=
  (postmortem_ignores_passed_resolution
    { incident_id := some "INC-1", alert := none, classification := none,
      timeline := [], resolution_data := none }
    { success := some true, recommended_steps := [] }
    { success := some false, recommended_steps := [] } 0).2 rfl

/-- C8: on an incident snapshot with an empty recorded timeline the
reconstructed timeline is exactly the synthetic detection entry, the
summary duration is the zero duration (rendered `0:00:00` by the code), the
effectiveness block divides by the guarded denominator `max(len-1, 1)`, and
the metrics block is produced (not the empty dict) with all-zero counters
over the single-entry timeline. -/
theorem postmortem_empty_timeline_safe (inc : IncidentIn) (rd : PMResolutionData)
    (now : ℤ) (h : inc.timeline = []) :
    (postmortemRun inc rd now).timeline.length = 1 ∧
    (postmortemRun inc rd now).summary.duration = 0 ∧
    (postmortemRun inc rd now).resolution_effectiveness.resolution_time_minutes = 0 ∧
    (postmortemRun inc rd now).resolution_effectiveness.automation_rate = 0 ∧
    (postmortemRun inc rd now).resolution_effectiveness.manual_interventions = 0 ∧
    ∃ m, (postmortemRun inc rd now).metrics = some m ∧
      m.total_duration_minutes = 0 ∧ m.agent_actions_count = 0 ∧
      m.human_actions_count = 0 ∧ m.automation_percentage = 0 ∧
      m.timeline_entries = 1 := by
  simp only [postmortemRun, reconstructTimeline, h, List.map_nil, sortByTime, List.foldl_cons,
    List.foldl_nil, stableInsert]
  refine ⟨rfl, ?_, ?_, ?_, ?_, ?_⟩
  · simp [generateSummary]
  · simp [analyzeResolutionEffectiveness]
  · simp [analyzeResolutionEffectiveness]
  · simp [analyzeResolutionEffectiveness]
  · refine ⟨⟨0, 0, 0, 0, 0, 1, (inc.resolution_data.getD emptyResolution).success.getD false⟩,
      ?_, rfl, rfl, rfl, rfl, rfl⟩
    simp [calculateIncidentMetrics]

/-- Witness for C8 on a concrete snapshot with an empty timeline. -/
theorem postmortem_empty_timeline_safe_witness :
    (postmortemRun
        { incident_id := some "INC-2", alert := none, classification := none,
          timeline := [], resolution_data := none }
        emptyResolution 5).summary.duration = 0 :=
  (postmortem_empty_timeline_safe
    { incident_id := some "INC-2", alert := none, classification := none,
      timeline := [], resolution_data := none }
    emptyResolution 5 rfl).2.1

theorem execLoop_length_le (draws : ℕ → ℚ) (durs : ℕ → ℕ) :
    ∀ l : List (ℕ × ExecPlanStep), (execLoop draws durs l).1.length ≤ l.length := by
  intro l
  induction l with
  | nil => simp [execLoop]
  | cons p rest ih =>
    obtain ⟨i, st⟩ := p
    simp only [execLoop]
    split
    · simpa using ih
    · simp

theorem execLoop_all_success_iff (draws : ℕ → ℚ) (durs : ℕ → ℕ) :
    ∀ l : List (ℕ × ExecPlanStep),
      (execLoop draws durs l).1.all (fun e => e.success) = !(execLoop draws durs l).2 := by
  intro l
  induction l with
  | nil => simp [execLoop]
  | cons p rest ih =>
    obtain ⟨i, st⟩ := p
    simp only [execLoop]
    by_cases hs : decide (draws (i + 1) < 9/10) = true
    · simp [hs, ih]
    · simp only [Bool.not_eq_true] at hs
      simp [hs]

theorem execLoop_cons_eq (draws : ℕ → ℚ) (durs : ℕ → ℕ) (i : ℕ) (st : ExecPlanStep)
    (rest : List (ℕ × ExecPlanStep)) :
    execLoop draws durs ((i, st) :: rest) =
      if draws (i + 1) < 9/10 then
        ({ step_number := st.step_number.getD (i + 1)
           description := st.description.getD "Unknown step"
           success := decide (draws (i + 1) < 9/10)
           duration_ms := durs i } :: (execLoop draws durs rest).1,
         (execLoop draws durs rest).2)
      else
        ([{ step_number := st.step_number.getD (i + 1)
            description := st.description.getD "Unknown step"
            success := decide (draws (i + 1) < 9/10)
            duration_ms := durs i }], true) := by
  by_cases hp : draws (i + 1) < 9/10 <;> simp [execLoop, hp]

theorem execLoop_dropLast_success (draws : ℕ → ℚ) (durs : ℕ → ℕ) :
    ∀ l : List (ℕ × ExecPlanStep),
      ∀ e ∈ (execLoop draws durs l).1.dropLast, e.success = true := by
  intro l
  induction l with
  | nil => simp [execLoop]
  | cons p rest ih =>
    obtain ⟨i, st⟩ := p
    rw [execLoop_cons_eq]
    by_cases hp : draws (i + 1) < 9/10
    · rw [if_pos hp]
      rcases htail : (execLoop draws durs rest).1 with _ | ⟨y, ys⟩
      · simp
      · intro e he
        simp only [htail, List.dropLast_cons₂] at he
        rcases List.mem_cons.1 he with rfl | he
        · simp [hp]
        · exact ih e (by rw [htail]; exact he)
    · rw [if_neg hp]
      simp

theorem execLoop_get?_success (draws : ℕ → ℚ) (durs : ℕ → ℕ) :
    ∀ (l : List ExecPlanStep) (k j : ℕ) (e : ExecStep),
      (execLoop draws durs (l.enumFrom k)).1.get? j = some e →
      e.success = decide (draws (k + j + 1) < 9/10) := by
  intro l
  induction l with
  | nil => intro k j e he; simp [execLoop, List.enumFrom] at he
  | cons x xs ih =>
    intro k j e he
    have hrw : (x :: xs).enumFrom k = (k, x) :: xs.enumFrom (k + 1) := rfl
    rw [hrw, execLoop_cons_eq] at he
    by_cases hp : draws (k + 1) < 9/10
    · rw [if_pos hp] at he
      cases j with
      | zero =>
        simp only [List.get?_cons_zero, Option.some.injEq] at he
        rw [← he]
      | succ j =>
        rw [List.get?_cons_succ] at he
        have hk : k + 1 + j + 1 = k + (j + 1) + 1 := by omega
        rw [← hk]
        exact ih (k + 1) j e he
    · rw [if_neg hp] at he
      cases j with
      | zero =>
        simp only [List.get?_cons_zero, Option.some.injEq] at he
        rw [← he]
      | succ j => simp at he

/-- C5: the simulated execution runs at most the first 3 plan steps; every
executed step except possibly the last succeeded (the loop breaks at the
first failure); executed step `j`'s outcome is exactly its own draw tested
against the fixed 0.9 bound; the aggregate outcome is the initial draw
weighted by the plan's success probability, forced false unless every
executed step succeeded; and with success probability 0 the aggregate
outcome is false for every (nonnegative) draw sequence. -/
theorem simulated_execution_properties (plan : ExecPlan) (draws : ℕ → ℚ) (durs : ℕ → ℕ) :
    (simulateResolutionExecution plan draws durs).executed_steps.length ≤ 3 ∧
    (simulateResolutionExecution plan draws durs).executed_steps.length
      ≤ plan.recommended_steps.length ∧
    (∀ e ∈ (simulateResolutionExecution plan draws durs).executed_steps.dropLast,
      e.success = true) ∧
    (∀ j e, (simulateResolutionExecution plan draws durs).executed_steps.get? j = some e →
      e.success = decide (draws (j + 1) < 9/10)) ∧
    (simulateResolutionExecution plan draws durs).success
      = (decide (draws 0 < plan.success_probability.getD (4/5))
          && (simulateResolutionExecution plan draws durs).executed_steps.all
               (fun e => e.success)) ∧
    (plan.success_probability = some 0 → 0 ≤ draws 0 →
      (simulateResolutionExecution plan draws durs).success = false) := by
  refine ⟨?_, ?_, ?_, ?_, ?_, ?_⟩
  · calc (simulateResolutionExecution plan draws durs).executed_steps.length
        ≤ (plan.recommended_steps.take 3).enum.length :=
          execLoop_length_le draws durs _
      _ ≤ 3 := by simp [List.enum_length]
  · calc (simulateResolutionExecution plan draws durs).executed_steps.length
        ≤ (plan.recommended_steps.take 3).enum.length :=
          execLoop_length_le draws durs _
      _ ≤ plan.recommended_steps.length := by simp [List.enum_length]
  · exact execLoop_dropLast_success draws durs _
  · intro j e he
    have := execLoop_get?_success draws durs (plan.recommended_steps.take 3) 0 j e he
    simpa using this
  · simp only [simulateResolutionExecution]
    rw [execLoop_all_success_iff]
  · intro hp h0
    simp only [simulateResolutionExecution, hp, Option.getD_some]
    have : ¬ (draws 0 < 0) := not_lt.2 h0
    simp [this]

/-- Witness for C5: with success probability 0 the aggregate outcome is
false under concrete draws. -/
theorem simulated_execution_properties_witness :
    (simulateResolutionExecution
      { recommended_steps :=
          [ { step_number := some 1, description := some "restart" },
            { step_number := some 2, description := some "verify" } ],
        estimated_time_minutes := some 10, success_probability := some 0 }
      (fun _ => 1/2) (fun _ => 1000)).success = false :=
  (simulated_execution_properties
    { recommended_steps :=
        [ { step_number := some 1, description := some "restart" },
          { step_number := some 2, description := some "verify" } ],
      estimated_time_minutes := some 10, success_probability := some 0 }
    (fun _ => 1/2) (fun _ => 1000)).2.2.2.2.2 rfl (by norm_num)

theorem recIds_cons (x : IncidentRec) (xs : List IncidentRec) :
    recIds (x :: xs) = x.id :: recIds xs := rfl

theorem setStatus_eq_of_not_mem (l : List IncidentRec) (ident : String) (st : IStatus)
    (h : ident ∉ recIds l) : setStatus l ident st = l := by
  induction l with
  | nil => rfl
  | cons x xs ih =>
    have h1 : ¬ x.id = ident := fun he => h (by rw [recIds_cons, he]; exact List.mem_cons_self _ _)
    have h2 : ident ∉ recIds xs := fun hm => h (by rw [recIds_cons]; exact List.mem_cons_of_mem _ hm)
    simp only [setStatus, List.map_cons, if_neg h1]
    exact congrArg _ (ih h2)

theorem setResolvedAt_eq_of_not_mem (l : List IncidentRec) (ident : String) (t : ℤ)
    (h : ident ∉ recIds l) : setResolvedAt l ident t = l := by
  induction l with
  | nil => rfl
  | cons x xs ih =>
    have h1 : ¬ x.id = ident := fun he => h (by rw [recIds_cons, he]; exact List.mem_cons_self _ _)
    have h2 : ident ∉ recIds xs := fun hm => h (by rw [recIds_cons]; exact List.mem_cons_of_mem _ hm)
    simp only [setResolvedAt, List.map_cons, if_neg h1]
    exact congrArg _ (ih h2)

theorem filter_ne_eq_of_not_mem (l : List IncidentRec) (ident : String)
    (h : ident ∉ recIds l) : l.filter (fun i => i.id ≠ ident) = l := by
  induction l with
  | nil => rfl
  | cons x xs ih =>
    have h1 : ¬ x.id = ident := fun he => h (by rw [recIds_cons, he]; exact List.mem_cons_self _ _)
    have h2 : ident ∉ recIds xs := fun hm => h (by rw [recIds_cons]; exact List.mem_cons_of_mem _ hm)
    rw [List.filter_cons, if_pos (by simpa using h1), ih h2]

theorem find?_id_eq_none_of_not_mem (l : List IncidentRec) (ident : String)
    (h : ident ∉ recIds l) : l.find? (fun i => i.id = ident) = none := by
  refine List.find?_eq_none.2 fun x hx hpx => ?_
  exact h (by simp only [recIds, List.mem_map]; exact ⟨x, hx, by simpa using hpx⟩)


/-- C1: along every observation point of `process_alert` for a fresh
incident, the incident is in exactly one of the active and completed
collections; completed entries for it are `Resolved`; any state in which it
is `Resolved` implies the simulated execution's aggregate outcome was
success and its resolution timestamp is set; and at the final state it is
`Resolved` exactly when the aggregate outcome was success. -/
theorem process_alert_lifecycle (fresh : String) (execSuccess : Bool) (t : ℤ)
    (s0 : OrchState) (ha : fresh ∉ recIds s0.active) (hc : fresh ∉ recIds s0.completed) :
    (∀ s ∈ processAlertTrace fresh execSuccess t s0,
        (fresh ∈ recIds s.active ∧ fresh ∉ recIds s.completed) ∨
        (fresh ∉ recIds s.active ∧ fresh ∈ recIds s.completed)) ∧
    (∀ s ∈ processAlertTrace fresh execSuccess t s0,
        ∀ i ∈ s.completed, i.id = fresh → i.status = IStatus.resolved) ∧
    (∀ s ∈ processAlertTrace fresh execSuccess t s0, ∀ i,
        lookupInc s fresh = some i → i.status = IStatus.resolved →
        execSuccess = true ∧ i.resolved_at = some t) ∧
    (∀ i, lookupInc ((processAlertTrace fresh execSuccess t s0).getLastD s0) fresh = some i →
        (i.status = IStatus.resolved ↔ execSuccess = true)) := by
  have hcNe : ∀ i ∈ s0.completed, ¬ i.id = fresh :=
    fun i hi he => hc (List.mem_map.2 ⟨i, hi, he⟩)
  have haNone : s0.active.find? (fun i => i.id = fresh) = none :=
    find?_id_eq_none_of_not_mem s0.active fresh ha
  have hset : ∀ (st st' : IStatus) (r : Option ℤ),
      setStatus ({ id := fresh, status := st, resolved_at := r } :: s0.active) fresh st'
        = { id := fresh, status := st', resolved_at := r } :: s0.active := by
    intro st st' r
    simp only [setStatus, List.map_cons, if_pos rfl]
    exact congrArg _ (setStatus_eq_of_not_mem s0.active fresh st' ha)
  have hres : ∀ st : IStatus,
      setResolvedAt ({ id := fresh, status := st, resolved_at := none } :: s0.active) fresh t
        = { id := fresh, status := st, resolved_at := some t } :: s0.active := by
    intro st
    simp only [setResolvedAt, List.map_cons, if_pos rfl]
    exact congrArg _ (setResolvedAt_eq_of_not_mem s0.active fresh t ha)
  have hfilter :
      ({ id := fresh, status := IStatus.resolved, resolved_at := some t } :: s0.active).filter
        (fun i => i.id ≠ fresh) = s0.active := by
    rw [List.filter_cons, if_neg (by simp), filter_ne_eq_of_not_mem s0.active fresh ha]
  have hfind : ∀ (st : IStatus) (r : Option ℤ),
      ({ id := fresh, status := st, resolved_at := r } :: s0.active).find?
        (fun i => i.id = fresh) = some { id := fresh, status := st, resolved_at := r } := by
    intro st r
    simp [List.find?_cons]
  have hlookA : ∀ (st : IStatus) (r : Option ℤ),
      lookupInc { active := { id := fresh, status := st, resolved_at := r } :: s0.active,
                  completed := s0.completed } fresh
        = some { id := fresh, status := st, resolved_at := r } := by
    intro st r
    unfold lookupInc
    simp [List.find?_cons]
  have hlook5 : lookupInc
      (⟨s0.active, ⟨fresh, IStatus.resolved, some t⟩ :: s0.completed⟩ : OrchState) fresh
      = some ⟨fresh, IStatus.resolved, some t⟩ := by
    unfold lookupInc
    rw [List.find?_append, haNone]
    simp [List.find?_cons]
  cases execSuccess with
  | true =>
    have htr : processAlertTrace fresh true t s0 =
        [ { active := { id := fresh, status := IStatus.detected, resolved_at := none } :: s0.active,
            completed := s0.completed },
          { active := { id := fresh, status := IStatus.analyzing, resolved_at := none } :: s0.active,
            completed := s0.completed },
          { active := { id := fresh, status := IStatus.resolving, resolved_at := none } :: s0.active,
            completed := s0.completed },
          { active := { id := fresh, status := IStatus.resolved, resolved_at := some t } :: s0.active,
            completed := s0.completed },
          ⟨s0.active, ⟨fresh, IStatus.resolved, some t⟩ :: s0.completed⟩ ] := by
      simp only [processAlertTrace, hset, hres, if_true, hfind, hfilter]
    rw [htr]
    refine ⟨?_, ?_, ?_, ?_⟩
    · intro s hs
      simp only [List.mem_cons, List.not_mem_nil, or_false] at hs
      rcases hs with rfl | rfl | rfl | rfl | rfl
      · exact Or.inl ⟨by simp [recIds], hc⟩
      · exact Or.inl ⟨by simp [recIds], hc⟩
      · exact Or.inl ⟨by simp [recIds], hc⟩
      · exact Or.inl ⟨by simp [recIds], hc⟩
      · exact Or.inr ⟨ha, by simp [recIds]⟩
    · intro s hs
      simp only [List.mem_cons, List.not_mem_nil, or_false] at hs
      rcases hs with rfl | rfl | rfl | rfl | rfl <;> intro i hi hid
      · exact absurd hid (hcNe i hi)
      · exact absurd hid (hcNe i hi)
      · exact absurd hid (hcNe i hi)
      · exact absurd hid (hcNe i hi)
      · rcases List.mem_cons.1 hi with rfl | hi
        · rfl
        · exact absurd hid (hcNe i hi)
    · intro s hs
      simp only [List.mem_cons, List.not_mem_nil, or_false] at hs
      rcases hs with rfl | rfl | rfl | rfl | rfl <;> intro i hi hst
      · rw [hlookA] at hi
        obtain rfl := Option.some.inj hi
        simp at hst
      · rw [hlookA] at hi
        obtain rfl := Option.some.inj hi
        simp at hst
      · rw [hlookA] at hi
        obtain rfl := Option.some.inj hi
        simp at hst
      · rw [hlookA] at hi
        obtain rfl := Option.some.inj hi
        exact ⟨rfl, rfl⟩
      · rw [hlook5] at hi
        obtain rfl := Option.some.inj hi
        exact ⟨rfl, rfl⟩
    · intro i hi
      simp only [List.getLastD_cons, List.getLastD_nil] at hi
      rw [hlook5] at hi
      obtain rfl := Option.some.inj hi
      simp
  | false =>
    have htr : processAlertTrace fresh false t s0 =
        [ { active := { id := fresh, status := IStatus.detected, resolved_at := none } :: s0.active,
            completed := s0.completed },
          { active := { id := fresh, status := IStatus.analyzing, resolved_at := none } :: s0.active,
            completed := s0.completed },
          { active := { id := fresh, status := IStatus.resolving, resolved_at := none } :: s0.active,
            completed := s0.completed },
          { active := { id := fresh, status := IStatus.resolving, resolved_at := none } :: s0.active,
            completed := s0.completed },
          { active := { id := fresh, status := IStatus.resolving, resolved_at := none } :: s0.active,
            completed := s0.completed } ] := by
      simp only [processAlertTrace, hset]
      simp [hfind]
    rw [htr]
    refine ⟨?_, ?_, ?_, ?_⟩
    · intro s hs
      simp only [List.mem_cons, List.not_mem_nil, or_false] at hs
      rcases hs with rfl | rfl | rfl | rfl | rfl <;>
        exact Or.inl ⟨by simp [recIds], hc⟩
    · intro s hs
      simp only [List.mem_cons, List.not_mem_nil, or_false] at hs
      rcases hs with rfl | rfl | rfl | rfl | rfl <;> intro i hi hid <;>
        exact absurd hid (hcNe i hi)
    · intro s hs
      simp only [List.mem_cons, List.not_mem_nil, or_false] at hs
      rcases hs with rfl | rfl | rfl | rfl | rfl <;> intro i hi hst <;>
        · rw [hlookA] at hi
          obtain rfl := Option.some.inj hi
          simp at hst
    · intro i hi
      simp only [List.getLastD_cons, List.getLastD_nil] at hi
      rw [hlookA] at hi
      obtain rfl := Option.some.inj hi
      simp

/-- Witness for C1: the exactly-one-collection invariant at the final
observation point of a successful run from empty collections. -/
theorem process_alert_lifecycle_witness :
    ("INC-7" ∈ recIds (OrchState.active ⟨[], [⟨"INC-7", IStatus.resolved, some 3⟩]⟩) ∧
     "INC-7" ∉ recIds (OrchState.completed ⟨[], [⟨"INC-7", IStatus.resolved, some 3⟩]⟩)) ∨
    ("INC-7" ∉ recIds (OrchState.active ⟨[], [⟨"INC-7", IStatus.resolved, some 3⟩]⟩) ∧
     "INC-7" ∈ recIds (OrchState.completed ⟨[], [⟨"INC-7", IStatus.resolved, some 3⟩]⟩)) :=
  (process_alert_lifecycle "INC-7" true 3 ⟨[], []⟩ (by decide) (by decide)).1
    ⟨[], [⟨"INC-7", IStatus.resolved, some 3⟩]⟩ (by decide)

theorem deliverLoop_length (cbs : List Observer) (m : WsMessage) :
    (deliverLoop cbs m).length = cbs.length := by
  induction cbs with
  | nil => rfl
  | cons cb rest ih => simp [deliverLoop, ih]

theorem deliverLoop_get? (m : WsMessage) :
    ∀ (cbs : List Observer) (j : ℕ) (cb : Observer), cbs.get? j = some cb →
      (deliverLoop cbs m).get? j = some (tryDeliver cb m) := by
  intro cbs
  induction cbs with
  | nil => intro j cb h; simp at h
  | cons c rest ih =>
    intro j cb h
    cases j with
    | zero =>
      simp only [List.get?_cons_zero, Option.some.injEq] at h
      rw [← h]
      rfl
    | succ j =>
      rw [List.get?_cons_succ] at h
      simpa [deliverLoop] using ih j cb h

/-- C6: broadcasting never mutates the observer registry (a failing observer
stays registered), always returns normally having visited the whole
registry, and the delivery attempt to observer `j` happens and is recorded
whatever any other observer did — one observer's raised exception is caught
inside the loop and does not abort the remaining deliveries. -/
theorem broadcast_isolates_observer_failures (st : FanoutState) (m : WsMessage) :
    (broadcastUpdate st m).1.websocket_callbacks = st.websocket_callbacks ∧
    (broadcastUpdate st m).2.length = st.websocket_callbacks.length ∧
    (∀ j cb, st.websocket_callbacks.get? j = some cb →
      (broadcastUpdate st m).2.get? j = some (tryDeliver cb m)) :=
  ⟨rfl, deliverLoop_length st.websocket_callbacks m,
    fun j cb h => deliverLoop_get? m st.websocket_callbacks j cb h⟩

/-- Witness for C6: with a raising observer in the middle of the registry,
the observer after it is still delivered to. -/
theorem broadcast_isolates_observer_failures_witness :
    (broadcastUpdate
      ⟨[fun _ => Except.ok (), fun _ => Except.error "boom", fun _ => Except.ok ()]⟩
      ⟨"status_update", ["incident_id", "status", "timestamp"], true⟩).2.get? 2
      = some true :=
  (broadcast_isolates_observer_failures
    ⟨[fun _ => Except.ok (), fun _ => Except.error "boom", fun _ => Except.ok ()]⟩
    ⟨"status_update", ["incident_id", "status", "timestamp"], true⟩).2.2 2
    (fun _ => Except.ok ()) rfl

/-- C7 counterexample: `SimpleCrisisCommander._update_incident_status`
broadcasts a notification of type `incident_updated`, which is outside the
contract set {incident_created, status_update, incident_completed,
incident_error}. -/
theorem notification_type_outside_contract :
    "incident_updated" ∈ simpleEmittedMessages.map (fun msg => msg.mtype) ∧
    "incident_updated" ∉ claimedNotificationTypes := by
  decide

/-- C7 amended: every notification is a `{type, data, timestamp}` message;
`DevOpsCrisisCommander`'s notification types all lie in the contract set,
but `SimpleCrisisCommander` emits the types incident_created,
incident_updated and incident_resolved, the latter two outside the contract
set. -/
theorem notification_types_amended :
    devopsEmittedMessages.all
      (fun msg => claimedNotificationTypes.contains msg.mtype && msg.hasTimestamp) = true ∧
    simpleEmittedMessages.all
      (fun msg =>
        ["incident_created", "incident_updated", "incident_resolved"].contains msg.mtype
          && msg.hasTimestamp) = true := by
  decide
